import Mathlib

/-!
Shallow embedding of the thinkdrop stategraph module's adaptive execution
core: the StateGraph workflow engine, the skill planner's session-reuse
normalization, the single-step dispatcher (executeCommand), and the
recovery engine (recoverSkill / tryFastRecovery / applyRecovery).

Each definition is translated from the JavaScript source.  External
services (the LLM backend and the MCP command service) are modelled as
explicit oracle parameters, and each node function additionally reports
whether it invoked the external backend, so that claims about external
calls can be stated.  JavaScript falsiness of strings and numbers
(`x || d`) is modelled explicitly by the js* helpers below.
-/

/- ## JavaScript string and option helpers -/

/-- Auxiliary for `strIncludes`: does `pat` occur contiguously in the
second list.  Walks the haystack one position at a time. -/
def charsHasSub (pat : List Char) : List Char → Bool
  | [] => pat.isEmpty
  | h :: hs => pat.isPrefixOf (h :: hs) || charsHasSub pat hs

/-- Model of the JavaScript `String.prototype.includes`. -/
def strIncludes (hay pat : String) : Bool :=
  charsHasSub pat.toList hay.toList

/-- Model of the JavaScript `String.prototype.toLowerCase` (ASCII),
implemented over the character list so that it evaluates by kernel
reduction. -/
def jsToLower (s : String) : String :=
  String.mk (s.toList.map Char.toLower)

/-- Model of the JavaScript `x || null` for a string-valued field: the
empty string is falsy and collapses to `none`. -/
def jsOrNone : Option String → Option String
  | some "" => none
  | x => x

/-- Model of the JavaScript `x || d` for a string: `null`, `undefined`
and the empty string all fall back to the default. -/
def jsOrStr : Option String → String → String
  | some "", d => d
  | some s, _ => s
  | none, d => d

/-- Model of the JavaScript `x || d` for a number: `null`, `undefined`
and `0` all fall back to the default. -/
def jsOrNat : Option Nat → Nat → Nat
  | some 0, d => d
  | some n, _ => n
  | none, d => d

/-- Truthiness of an optional string (JavaScript: absent or empty is falsy). -/
def jsTruthy : Option String → Bool
  | some s => s != ""
  | none => false

/- ## Data model (spec section 3, translated from the node sources) -/

/-- Arguments of a skill step.  The JavaScript `args` object is an open
key-to-value map; this structure carries the keys the core reads. -/
structure SkillArgs where
  cmd : Option String := none
  argv : Option (List String) := none
  cwd : Option String := none
  timeoutMs : Option Nat := none
  sessionId : Option String := none
  url : Option String := none
  action : Option String := none
  selector : Option String := none
  text : Option String := none
  deriving Repr, DecidableEq

/-- One structured step of a skill plan. -/
structure SkillStep where
  skill : String
  args : SkillArgs := {}
  optional : Bool := false
  description : Option String := none
  deriving Repr, DecidableEq

/-- Default step used for out-of-range list reads (never reached on the
in-range reads performed by the dispatcher). -/
def defaultStep : SkillStep := { skill := "" }

/-- Result of one dispatch attempt, as built by executeCommand and
consumed by recoverSkill.  `url` and `pageContext` are populated by
browser nodes outside this dispatcher and default to absent. -/
structure StepResult where
  step : Nat
  skill : String
  args : SkillArgs
  description : Option String := none
  ok : Bool
  stdout : Option String := none
  stderr : Option String := none
  exitCode : Option Int := none
  result : Option String := none
  error : Option String := none
  url : Option String := none
  pageContext : Option String := none
  executionTime : Option Nat := none
  deriving Repr, DecidableEq

/-- Recovery context handed to the planner by a REPLAN decision. -/
structure RecoveryContext where
  failedSkill : String
  failedStepNum : Nat
  failureReason : Option String := none
  suggestion : Option String := none
  alternativeCwd : Option String := none
  constraint : Option String := none
  deriving Repr, DecidableEq

/-- Pending question surfaced to the user by an ASK_USER decision. -/
structure PendingQuestion where
  question : Option String := none
  options : List String := []
  ctx : Option StepResult := none
  deriving Repr, DecidableEq

/-- A recovery decision object.  In the source this is a plain JSON
object whose `action` field is switched on by applyRecovery; fields not
relevant to a given action are simply absent. -/
structure Decision where
  action : String
  patchedArgs : SkillArgs := {}
  note : Option String := none
  suggestion : Option String := none
  alternativeCwd : Option String := none
  constraint : Option String := none
  question : Option String := none
  options : Option (List String) := none
  isTimeoutRetry : Bool := false
  deriving Repr, DecidableEq

/-- Default decision used only as an `Option.getD` placeholder in theorem
statements. -/
def emptyDecision : Decision := { action := "" }

/-- The workflow state threaded through every node, restricted to the
fields the planner, dispatcher and recovery engine read or write. -/
structure WorkflowState where
  intentType : Option String := none
  hasMcpAdapter : Bool := false
  message : String := ""
  skillPlan : Option (List SkillStep) := none
  skillCursor : Nat := 0
  skillResults : List StepResult := []
  failedStep : Option StepResult := none
  stepRetryCount : Nat := 0
  recoveryAction : Option String := none
  recoveryContext : Option RecoveryContext := none
  recoveryNote : Option String := none
  pendingQuestion : Option PendingQuestion := none
  commandExecuted : Option Bool := none
  answer : Option String := none
  planError : Option String := none
  activeBrowserSessionId : Option String := none
  activeBrowserUrl : Option String := none
  deriving Repr, DecidableEq

/- ## Recovery engine (src/unnamed/part_007) -/

/-- Model of the `process.env.HOME || '/Users/unknown'` fallback used in
fast-path recovery texts (the environment variable is treated as unset). -/
def envHome : String := "/Users/unknown"

/-- Merge of patched args into a step's args, modelling the JavaScript
object spread: a key present in the patch overrides the original. -/
def mergeArgs (a : SkillArgs) (p : SkillArgs) : SkillArgs :=
  { cmd := p.cmd.orElse fun _ => a.cmd
    argv := p.argv.orElse fun _ => a.argv
    cwd := p.cwd.orElse fun _ => a.cwd
    timeoutMs := p.timeoutMs.orElse fun _ => a.timeoutMs
    sessionId := p.sessionId.orElse fun _ => a.sessionId
    url := p.url.orElse fun _ => a.url
    action := p.action.orElse fun _ => a.action
    selector := p.selector.orElse fun _ => a.selector
    text := p.text.orElse fun _ => a.text }

/-- The lowercased concatenation of a failed step's error and stderr,
matched by every fast-path pattern check. -/
def combinedErrorText (failedStep : StepResult) : String :=
  jsToLower ((failedStep.error.getD "") ++ " " ++ (failedStep.stderr.getD ""))

/-- Fast-path recovery, a line-by-line translation of `tryFastRecovery`.
Checks the failure's error text against the ordered set of known
patterns and returns the first matching decision, or `none` when no
deterministic rule applies (the caller then falls back to the LLM). -/
def tryFastRecovery (failedStep : StepResult) (_skillPlan : Option (List SkillStep))
    (_cursor : Nat) (stepRetryCount : Nat) : Option Decision :=
  let skill := failedStep.skill
  let args := failedStep.args
  let combinedError := combinedErrorText failedStep
  -- Skill not yet implemented
  if strIncludes combinedError "not yet implemented" then
    some { action := "ASK_USER"
           question := some ("The \"" ++ skill ++ "\" skill isn't available yet in this version of Thinkdrop. Would you like me to try a different approach using only shell commands?")
           options := some ["Yes, try with shell commands only", "Cancel this task"] }
  else
    -- browser.act failures
    let browserDecision : Option Decision :=
      if skill == "browser.act" then
        let action := jsOrStr args.action ""
        let noInput : Option Decision :=
          if strIncludes combinedError "no visible input elements" then
            let currentUrl := failedStep.url.getD ""
            let pageContext := jsToLower (failedStep.pageContext.getD "")
            let isLoginPage :=
              strIncludes pageContext "sign in" || strIncludes pageContext "log in" ||
              strIncludes pageContext "login" || strIncludes pageContext "create account" ||
              strIncludes pageContext "continue with google" || strIncludes pageContext "continue with email" ||
              strIncludes pageContext "enter your email" || strIncludes pageContext "get started" ||
              strIncludes pageContext "sign up" || strIncludes pageContext "register"
            if isLoginPage && stepRetryCount == 0 then
              some { action := "ASK_USER"
                     question := some ("The browser landed on a login or sign-up page instead of the app. Please log in to \"" ++ currentUrl ++ "\" in the browser, then reply \"continue\" to resume.")
                     options := some ["I am now logged in — continue", "Abort the task"] }
            else if 1 ≤ stepRetryCount then
              some { action := "ASK_USER"
                     question := some ("The browser couldn't find a text input on the page at \"" ++ currentUrl ++ "\". The page may require login or the site may have changed its layout.")
                     options := some ["I am logged in — skip this step and continue", "Abort the task"] }
            else none
          else none
        match noInput with
        | some d => some d
        | none =>
          if strIncludes combinedError "timeout" && (strIncludes combinedError "selector" || jsTruthy args.selector) then
            if stepRetryCount == 0 then
              some { action := "REPLAN"
                     suggestion := some ("The selector \"" ++ args.selector.getD "" ++ "\" was not found — the page likely uses a contenteditable div or a different input type. Replace any waitForSelector + type steps with a single smartType step, which auto-discovers the correct input element (works for input, textarea, and contenteditable divs).")
                     constraint := some ("Replace the failed step with a smartType browser.act step with sessionId \"" ++ jsOrStr args.sessionId "default" ++ "\". Do NOT use waitForSelector before smartType — it handles waiting internally. Use the same sessionId as the rest of the plan.") }
            else
              some { action := "ASK_USER"
                     question := some "The browser couldn't find any input element on the page to type into. Would you like me to take a screenshot so you can see what's visible?"
                     options := some ["Yes, take a screenshot", "Cancel"] }
          else if action == "navigate" && (strIncludes combinedError "net::err" || strIncludes combinedError "failed to navigate") then
            some { action := "ASK_USER"
                   question := some ("The browser couldn't load \"" ++ args.url.getD "" ++ "\". Is the URL correct, or would you like to try a different address?")
                   options := some ["Try a different URL", "Cancel"] }
          else if strIncludes combinedError "target closed" || strIncludes combinedError "browser closed" || strIncludes combinedError "browser has been closed" then
            if stepRetryCount == 0 then
              some { action := "REPLAN"
                     suggestion := some "The browser session was closed unexpectedly. Restart the task with a new sessionId."
                     constraint := some "Use a new sessionId — the previous session is gone." }
            else
              some { action := "ASK_USER"
                     question := some "The browser keeps closing unexpectedly. Please restart the app and try again."
                     options := some ["Restart and retry", "Cancel"] }
          else none
      else none
    match browserDecision with
    | some d => some d
    | none =>
      -- mkdir on root: suggest Desktop
      if skill == "shell.run" && args.cmd == some "mkdir" &&
         (strIncludes combinedError "permission denied" || strIncludes combinedError "read-only") then
        some { action := "ASK_USER"
               question := some ("I don't have permission to create a folder there (" ++ jsOrStr args.cwd "that location" ++ "). Would you like me to create it on your Desktop instead?")
               options := some ["Yes, use Desktop (" ++ envHome ++ "/Desktop)", "Choose a different location", "Cancel"] }
      -- Command not found
      else if (strIncludes combinedError "command not found" || strIncludes combinedError "no such file or directory") &&
              skill == "shell.run" then
        some { action := "ASK_USER"
               question := some ("The command \"" ++ args.cmd.getD "" ++ "\" wasn't found on your system. Is it installed? Would you like me to try installing it first?")
               options := some ["Install " ++ args.cmd.getD "" ++ " via brew", "Skip this step", "Cancel"] }
      else
        -- Search returned no results
        let searchDecision : Option Decision :=
          if strIncludes combinedError "search_no_results" then
            let cmd := jsOrStr args.cmd "mdfind"
            let argv := args.argv.getD []
            let nameIdx? := argv.findIdx? (· == "-name")
            let searchTerm :=
              match nameIdx? with
              | some i => (argv.get? (i + 1)).getD "undefined"
              | none => jsOrStr (argv.get? 0) ""
            let onlyInIdx? := argv.findIdx? (· == "-onlyin")
            let positionalPath := argv.find? (·.startsWith "/")
            let searchDir :=
              match onlyInIdx? with
              | some i => (argv.get? (i + 1)).getD "undefined"
              | none =>
                match positionalPath with
                | some p => if p ≠ searchTerm then p else jsOrStr args.cwd (envHome ++ "/Desktop")
                | none => jsOrStr args.cwd (envHome ++ "/Desktop")
            if cmd == "mdfind" then
              some { action := "REPLAN"
                     suggestion := some ("mdfind (Spotlight) returned no results for \"" ++ searchTerm ++ "\" — Spotlight may not have indexed this file yet. Use find instead: find \"" ++ searchDir ++ "\" -name \"" ++ searchTerm ++ "\" -maxdepth 5")
                     constraint := some ("Search in \"" ++ searchDir ++ "\" using find, not mdfind. Set timeoutMs: 30000.") }
            else if cmd == "find" then
              some { action := "REPLAN"
                     suggestion := some ("find returned no results in \"" ++ searchDir ++ "\" for \"" ++ searchTerm ++ "\". Widen the search to the home directory: find \"" ++ envHome ++ "\" -name \"" ++ searchTerm ++ "\" -maxdepth 6")
                     constraint := some "Search all of home directory using find. Set timeoutMs: 60000." }
            else none
          else none
        match searchDecision with
        | some d => some d
        | none =>
          -- Timeout: smart recovery based on what timed out
          if strIncludes combinedError "timed out" || strIncludes combinedError "timeout" then
            if skill == "shell.run" && args.cmd == some "find" && stepRetryCount == 0 then
              some { action := "REPLAN"
                     suggestion := some "The find command timed out scanning a large directory. Use mdfind (macOS Spotlight) instead — it is instant."
                     constraint := some "Do not use find with a broad cwd like the home directory. Use mdfind for file searches on macOS." }
            else
              let retryAttempt := stepRetryCount + 1
              let currentTimeout := jsOrNat args.timeoutMs 10000
              -- multipliers = [2, 3]: retry 1 doubles, retry 2 triples
              if retryAttempt ≤ 2 then
                let newTimeout := currentTimeout * (if retryAttempt == 1 then 2 else 3)
                some { action := "AUTO_PATCH"
                       patchedArgs := { timeoutMs := some newTimeout }
                       note := some ("Timeout retry " ++ toString retryAttempt ++ ": increasing timeoutMs from " ++ toString currentTimeout ++ "ms to " ++ toString newTimeout ++ "ms")
                       isTimeoutRetry := true }
              else
                some { action := "ASK_USER"
                       question := some ("\"" ++ jsOrStr args.cmd skill ++ "\" timed out after 3 attempts. Would you like to skip it or try a different approach?")
                       options := some ["Skip this step and continue", "Try a different approach", "Cancel"] }
          else none

/-- Patch the step at the given index, modelling the indexed `map` in the
AUTO_PATCH branch of applyRecovery. -/
def patchPlanAux (patch : SkillArgs) (cursor : Nat) : Nat → List SkillStep → List SkillStep
  | _, [] => []
  | i, s :: rest =>
    (if i = cursor then { s with args := mergeArgs s.args patch } else s) ::
      patchPlanAux patch cursor (i + 1) rest

/-- Apply a recovery decision to the state, translated from
`applyRecovery`.  `failedStep` is the destructured `state.failedStep`,
which is non-null at every call site (recoverSkill guards on it). -/
def applyRecovery (decision : Decision) (failedStep : StepResult) (state : WorkflowState)
    (skillPlan : Option (List SkillStep)) (cursor : Nat) (stepRetryCount : Nat) : WorkflowState :=
  if decision.action = "AUTO_PATCH" then
    let patchedPlan := patchPlanAux decision.patchedArgs cursor 0 (skillPlan.getD [])
    let nextRetryCount := if decision.isTimeoutRetry then stepRetryCount + 1 else 0
    { state with
      recoveryAction := some "auto_patch"
      skillPlan := some patchedPlan
      skillCursor := cursor
      failedStep := none
      stepRetryCount := nextRetryCount
      recoveryNote := decision.note }
  else if decision.action = "REPLAN" then
    { state with
      recoveryAction := some "replan"
      recoveryContext := some
        { failedSkill := failedStep.skill
          failedStepNum := failedStep.step
          failureReason := failedStep.error
          suggestion := decision.suggestion
          alternativeCwd := jsOrNone decision.alternativeCwd
          constraint := jsOrNone decision.constraint }
      failedStep := none
      skillPlan := none
      skillCursor := 0
      stepRetryCount := 0 }
  else if decision.action = "ASK_USER" then
    let opts := decision.options.getD []
    let optionsList := String.intercalate "\n"
      ((List.range opts.length).zipWith (fun i o => toString (i + 1) ++ ". " ++ o) opts)
    { state with
      recoveryAction := some "ask_user"
      pendingQuestion := some { question := decision.question, options := opts, ctx := some failedStep }
      commandExecuted := some false
      stepRetryCount := 0
      answer := some (match decision.options with
        | some l => if l.length ≠ 0 then (decision.question.getD "") ++ "\n\n" ++ optionsList
                    else decision.question.getD ""
        | none => decision.question.getD "") }
  else
    -- Unknown action: default to ASK_USER
    { state with
      recoveryAction := some "ask_user"
      pendingQuestion := some { question := some ("Step failed: " ++ failedStep.error.getD "null"), options := [], ctx := some failedStep }
      commandExecuted := some false
      answer := some ("Step " ++ toString failedStep.step ++ " failed: " ++ failedStep.error.getD "null") }

/-- The resolved LLM backend, modelled as an oracle: the result of
`isAvailable()` (a rejection is caught and treated as false) and the
parsed decision from `generateAnswer` (`none` covers both a thrown call
and an unparseable reply). -/
structure LLMOracle where
  available : Bool
  decision? : Option Decision
  deriving Repr, DecidableEq

/-- The ASK_USER fallback returned when no LLM backend is configured. -/
def noBackendAskUser (state : WorkflowState) (failedStep : StepResult) : WorkflowState :=
  { state with
    recoveryAction := some "ask_user"
    pendingQuestion := some
      { question := some ("Step " ++ toString failedStep.step ++ " (" ++ failedStep.skill ++ ") failed: " ++ failedStep.error.getD "null" ++ ". How would you like to proceed?")
        options := ["Skip this step", "Abort the task", "Try a different approach"]
        ctx := some failedStep }
    commandExecuted := some false
    answer := some ("I hit a problem at step " ++ toString failedStep.step ++ ": " ++ failedStep.error.getD "null" ++ "\n\nHow would you like to proceed?") }

/-- The ASK_USER fallback returned from the catch block when the LLM
call fails or its reply cannot be parsed. -/
def catchAskUser (state : WorkflowState) (failedStep : StepResult) : WorkflowState :=
  { state with
    recoveryAction := some "ask_user"
    pendingQuestion := some
      { question := some ("Step " ++ toString failedStep.step ++ " (" ++ failedStep.skill ++ ") failed: \"" ++ failedStep.error.getD "null" ++ "\". What should I do?")
        options := ["Skip this step and continue", "Abort the task", "Try a different approach"]
        ctx := some failedStep }
    commandExecuted := some false
    answer := some ("I ran into a problem at step " ++ toString failedStep.step ++ " (" ++ failedStep.skill ++ "):\n\n> " ++ failedStep.error.getD "null" ++ "\n\nWhat would you like me to do?") }

/-- The recoverSkill node.  Returns the updated state together with a
flag recording whether the LLM backend was invoked (`isAvailable` or
`generateAnswer`); the fast path never sets it. -/
def recoverSkill (backend : Option LLMOracle) (state : WorkflowState) : WorkflowState × Bool :=
  match state.failedStep with
  | none => (state, false)
  | some failedStep =>
    match tryFastRecovery failedStep state.skillPlan state.skillCursor state.stepRetryCount with
    | some fastRecovery =>
      (applyRecovery fastRecovery failedStep state state.skillPlan state.skillCursor state.stepRetryCount, false)
    | none =>
      match backend with
      | none => (noBackendAskUser state failedStep, false)
      | some b =>
        if b.available then
          match b.decision? with
          | some decision =>
            (applyRecovery decision failedStep state state.skillPlan state.skillCursor state.stepRetryCount, true)
          | none => (catchAskUser state failedStep, true)
        else (catchAskUser state failedStep, true)

/- ## Dispatcher (src/src/nodes/executeCommand.js, single-step version) -/

/-- The raw response object of the external command service.  `ok?` and
`success?` model the `raw.ok ?? raw.success ?? false` chain (absent
means null or undefined). -/
structure RawResult where
  ok? : Option Bool := none
  success? : Option Bool := none
  stdout : Option String := none
  stderr : Option String := none
  exitCode : Option Int := none
  result : Option String := none
  error : Option String := none
  executionTime : Option Nat := none
  deriving Repr, DecidableEq

/-- Outcome of the MCP `command.automate` call for one dispatch: either a
resolved response object or a thrown error message (the catch branch). -/
inductive DispatchOutcome where
  | ok (raw : RawResult)
  | threw (msg : String)
  deriving Repr, DecidableEq

/-- The search-command allowlist used for soft-failure reclassification. -/
def SEARCH_CMDS : List String := ["mdfind", "find", "grep", "locate"]

/-- Is this a `bash` invocation whose argv mentions a search utility. -/
def isBashSearchScript (args : SkillArgs) : Bool :=
  args.cmd == some "bash" &&
    (match args.argv with
     | some argv => argv.any fun a => SEARCH_CMDS.any fun sc => strIncludes a sc
     | none => false)

/-- The distinguishing error tag for reclassified empty search results. -/
def searchNoResultsMsg : String :=
  "search_no_results: search returned no results for the given query"

/-- The executeCommand node (single-step cycle dispatcher).  Dispatches
exactly one pending step per pass against the external command service,
modelled by the `outcome` parameter, and classifies the response.  The
returned flag records whether a dispatch attempt (a `callService`
invocation) was made on this pass. -/
def executeCommand (outcome : DispatchOutcome) (state : WorkflowState) : WorkflowState × Bool :=
  if state.intentType ≠ some "command_automate" then (state, false)
  else if ¬state.hasMcpAdapter then
    ({ state with commandExecuted := some false
                  answer := some "[MCP not available — skill plan could not be dispatched]" }, false)
  else
    match state.skillPlan with
    | none =>
      ({ state with commandExecuted := some false
                    answer := some "[No skill plan found — ensure planSkills node runs before executeCommand]" }, false)
    | some plan =>
      if plan.length = 0 then
        ({ state with commandExecuted := some false
                      answer := some "[No skill plan found — ensure planSkills node runs before executeCommand]" }, false)
      else if plan.length ≤ state.skillCursor then
        -- All steps done
        ({ state with commandExecuted := some true
                      failedStep := none
                      answer := some ("Completed " ++ toString (state.skillResults.filter (·.ok)).length ++ "/" ++ toString plan.length ++ " skill steps successfully.") }, false)
      else
        let step := plan.getD state.skillCursor defaultStep
        match outcome with
        | .ok raw =>
          let stepResult : StepResult :=
            { step := state.skillCursor + 1
              skill := step.skill
              args := step.args
              description := step.description
              ok := raw.ok?.getD (raw.success?.getD false)
              stdout := jsOrNone raw.stdout
              stderr := jsOrNone raw.stderr
              exitCode := raw.exitCode
              result := jsOrNone raw.result
              error := jsOrNone raw.error
              executionTime := raw.executionTime }
          -- Soft-failure reclassification of empty search results
          let isSearchCmd := step.skill == "shell.run" &&
            ((match step.args.cmd with
              | some c => SEARCH_CMDS.contains c
              | none => false) || isBashSearchScript step.args)
          let noOutput :=
            match stepResult.stdout with
            | none => true
            | some s => s.trim.length == 0
          let stepResult :=
            if isSearchCmd && noOutput && (stepResult.ok || stepResult.exitCode == some 1) then
              { stepResult with ok := false, error := some searchNoResultsMsg }
            else stepResult
          let updatedResults := state.skillResults ++ [stepResult]
          if ¬stepResult.ok ∧ ¬step.optional then
            -- Hard failure: hand off to recoverSkill
            ({ state with skillResults := updatedResults
                          skillCursor := state.skillCursor
                          failedStep := some stepResult
                          commandExecuted := some false }, true)
          else
            -- Step succeeded (or was optional): advance cursor
            ({ state with skillResults := updatedResults
                          skillCursor := state.skillCursor + 1
                          failedStep := none
                          commandExecuted := some (decide (plan.length ≤ state.skillCursor + 1))
                          answer := if plan.length ≤ state.skillCursor + 1 then
                              some ("Completed " ++ toString (updatedResults.filter (·.ok)).length ++ "/" ++ toString plan.length ++ " skill steps successfully.")
                            else none }, true)
        | .threw msg =>
          -- Uncaught dispatch error, captured like a failed StepResult
          let isSearchExit1 :=
            ((match step.args.cmd with
              | some c => SEARCH_CMDS.contains c
              | none => false) || isBashSearchScript step.args) && strIncludes msg "code 1"
          let stepResult : StepResult :=
            { step := state.skillCursor + 1
              skill := step.skill
              args := step.args
              ok := false
              error := some (if isSearchExit1 then searchNoResultsMsg else msg) }
          ({ state with skillResults := state.skillResults ++ [stepResult]
                        skillCursor := state.skillCursor
                        failedStep := some stepResult
                        commandExecuted := some false }, true)

/-- Iterate the dispatcher over a sequence of external outcomes, counting
the dispatch attempts made. -/
def runDispatch : List DispatchOutcome → WorkflowState → WorkflowState × Nat
  | [], st => (st, 0)
  | o :: rest, st =>
    let r := executeCommand o st
    let r2 := runDispatch rest r.1
    (r2.1, (if r.2 then 1 else 0) + r2.2)

/- ## Planner (src/unnamed/part_011, second version, with session reuse) -/

/-- Model of the `new URL(u).hostname` builtin for plain http or https
URLs: strips the scheme, then takes the authority up to the first slash,
dropping a port suffix.  A string without an http scheme makes the URL
constructor throw, modelled as `none` (the caller catches and treats it
as a domain mismatch). -/
def urlHostname (u : String) : Option String :=
  let cs := u.toList
  let rest :=
    if "https://".toList.isPrefixOf cs then some (cs.drop 8)
    else if "http://".toList.isPrefixOf cs then some (cs.drop 7)
    else none
  match rest with
  | none => none
  | some r =>
    let hostPort := r.takeWhile (· ≠ '/')
    let host := hostPort.takeWhile (· ≠ ':')
    if host.isEmpty then none else some (String.mk host)

/-- The known domain-alias pairs of the planner. -/
def DOMAIN_ALIASES : List (String × String) :=
  [("chat.openai.com", "chatgpt.com"),
   ("chatgpt.com", "chat.openai.com"),
   ("www.google.com", "google.com"),
   ("google.com", "www.google.com")]

/-- Normalize a hostname to itself plus its known alias, if any. -/
def normalizeDomain (h : String) : List String :=
  match (DOMAIN_ALIASES.find? (·.1 = h)).map (·.2) with
  | some a => [h, a]
  | none => [h]

/-- Is this step a `browser.act` step. -/
def isBrowserStep (s : SkillStep) : Bool := s.skill == "browser.act"

/-- Is this step a `browser.act` navigation step. -/
def isNavStep (s : SkillStep) : Bool :=
  s.skill == "browser.act" && s.args.action == some "navigate"

/-- Overwrite a browser step's session id with the active one. -/
def overwriteSession (sid : String) (step : SkillStep) : SkillStep :=
  if step.skill == "browser.act" then
    { step with args := { step.args with sessionId := some sid } }
  else step

/-- Does the first navigation step of the plan target the same domain as
the active browser URL, under the known domain aliases.  Mirrors the
`isSameDomain` computation including the try/catch around URL parsing. -/
def navSameDomain (plan : List SkillStep) (activeUrl : Option String) : Bool :=
  match plan.find? isNavStep, activeUrl with
  | some nav, some aurl =>
    (match nav.args.url with
     | some nurl =>
       (match urlHostname nurl, urlHostname aurl with
        | some navHost, some activeHost => (normalizeDomain navHost).contains activeHost
        | _, _ => false)
     | none => false)
  | _, _ => false

/-- Session-reuse normalization of a freshly parsed plan, translated from
the active-browser-session enforcement block of planSkills.  Applied only
when an active session id is set (and truthy). -/
def normalizeSessionPlan (activeSessionId : Option String) (activeUrl : Option String)
    (plan : List SkillStep) : List SkillStep :=
  if ¬jsTruthy activeSessionId then plan
  else
    let sid := activeSessionId.getD ""
    let browserSteps := plan.filter isBrowserStep
    if browserSteps.length = 0 then plan
    else
      let plannedSessionIds := ((browserSteps.map (fun s => s.args.sessionId)).filter jsTruthy).dedup
      if 1 < plannedSessionIds.length then
        -- Multi-tab plan: preserve all session ids and navigates
        plan
      else
        -- Single-site follow-up: enforce active sessionId
        let plan1 := plan.map (overwriteSession sid)
        let activeBrowserUrl := jsOrNone activeUrl
        if navSameDomain plan1 activeBrowserUrl then
          let withoutNavigate := plan1.filter (fun s => ¬isNavStep s)
          if 0 < withoutNavigate.length then withoutNavigate else plan1
        else plan1

/-- A parsed LLM planning reply (the value produced by parsePlan from the
raw text): either a JSON array of steps, or a non-array object carrying a
truthy `error` field (the refusal shape the planner special-cases). -/
inductive PlanJson where
  | arr (steps : List SkillStep)
  | objErr (err : String)
  deriving Repr, DecidableEq

/-- The resolved planning backend, modelled as an oracle: availability
and the parsed value of each generateAnswer call (`none` models an
unparseable reply). -/
structure PlanOracle where
  available : Bool
  response1 : Option PlanJson := none
  response2 : Option PlanJson := none
  responseEnriched : Option PlanJson := none
  deriving Repr, DecidableEq

/-- Handle a parsed plan value, translated from the array-vs-error-object
branches of planSkills; `calls` counts backend invocations so far. -/
def planSkillsHandle (b : PlanOracle) (state : WorkflowState) (v : PlanJson) (calls : Nat) :
    WorkflowState × Nat :=
  match v with
  | .objErr errMsg =>
    let isPlaceholder := errMsg = "reason" ∨ errMsg.length < 10
    if isPlaceholder then
      match b.responseEnriched with
      | some (.arr retryPlan) =>
        ({ state with skillPlan := some retryPlan, skillCursor := 0,
                      recoveryContext := none, planError := none }, calls + 1)
      | _ =>
        let humanError := "I need more context to complete this — try being more specific (e.g. include the full file path)."
        ({ state with planError := some humanError, commandExecuted := some false,
                      answer := some humanError }, calls + 1)
    else
      let humanError := "Cannot automate this: " ++ errMsg
      ({ state with planError := some humanError, commandExecuted := some false,
                    answer := some humanError }, calls)
  | .arr steps =>
    let skillPlan := normalizeSessionPlan state.activeBrowserSessionId state.activeBrowserUrl steps
    ({ state with skillPlan := some skillPlan, skillCursor := 0,
                  recoveryContext := none, planError := none }, calls)

/-- The planSkills node.  Returns the updated state and the number of
LLM backend invocations (isAvailable and each generateAnswer). -/
def planSkills (backend : Option PlanOracle) (state : WorkflowState) : WorkflowState × Nat :=
  if state.intentType ≠ some "command_automate" then (state, 0)
  else
    match backend with
    | none =>
      ({ state with planError := some "No LLM backend available for skill planning" }, 0)
    | some b =>
      if ¬b.available then
        ({ state with planError := some "LLM backend unavailable for skill planning" }, 1)
      else
        match b.response1 with
        | some v => planSkillsHandle b state v 2
        | none =>
          -- Parse failed: retry once
          match b.response2 with
          | some v => planSkillsHandle b state v 3
          | none =>
            ({ state with planError := some "Failed to parse skill plan from LLM output" }, 3)

/- ## Workflow engine (src/unnamed/part_012, StateGraph) -/

/-- The engine-level state wrapper: a payload (the domain state) plus the
engine-managed fields.  The trace and timing fields are logging-only and
omitted. -/
structure GraphState (σ : Type) where
  payload : σ
  error : Option String := none
  failedNode : Option String := none
  success : Bool := true
  iterations : Nat := 0

/-- An entry of the routing table: absent, a static target name, or a
function of state. -/
inductive EdgeSpec (σ : Type) where
  | undefinedEdge
  | staticEdge (target : String)
  | computedEdge (f : GraphState σ → String)

/-- The StateGraph: named node functions (which may throw, modelled by
Except) and a routing table. -/
structure StateGraph (σ : Type) where
  nodes : String → Option (GraphState σ → Except String (GraphState σ))
  edges : String → EdgeSpec σ
  startNode : String := "start"

/-- Translation of `_getNextNode`: no edge means end; otherwise follow
the static target or evaluate the routing function. -/
def StateGraph.getNextNode (g : StateGraph σ) (currentNode : String) (st : GraphState σ) : String :=
  match g.edges currentNode with
  | .undefinedEdge => "end"
  | .staticEdge t => t
  | .computedEdge f => f st

/-- The main execution loop of `StateGraph.execute`.  The fuel argument
equals `maxIterations - iterations`, so running out of fuel is exactly
the `iterations < maxIterations` guard failing.  `visited` collects the
visit keys `(currentNode, iterations)` exactly as the source builds its
string set. -/
def StateGraph.execLoop (g : StateGraph σ) : Nat → String → List (String × Nat) → Nat →
    GraphState σ → GraphState σ × Nat
  | 0, _, _, iterations, st => (st, iterations)
  | Nat.succ fuel, currentNode, visited, iterations, st =>
    if currentNode = "" ∨ currentNode = "end" then (st, iterations)
    else
      let iterations1 := iterations + 1
      let visitKey := (currentNode, iterations1)
      if visited.contains visitKey ∧ 10 < iterations1 then
        ({ st with error := some ("Infinite loop detected at node: " ++ currentNode) }, iterations1)
      else
        let visited1 := visitKey :: visited
        match g.nodes currentNode with
        | none =>
          ({ st with error := some ("Node not found: " ++ currentNode),
                     failedNode := some currentNode }, iterations1)
        | some nodeFn =>
          match nodeFn st with
          | .error msg =>
            ({ st with error := some msg, failedNode := some currentNode }, iterations1)
          | .ok st1 =>
            let next := g.getNextNode currentNode st1
            StateGraph.execLoop g fuel next visited1 iterations1 st1

/-- The hard iteration cap of the engine. -/
def maxIterations : Nat := 50

/-- Translation of `StateGraph.execute`: run the loop from the start
node, then finalize `iterations` and `success = !state.error`. -/
def StateGraph.execute (g : StateGraph σ) (initialState : GraphState σ) : GraphState σ :=
  let r := StateGraph.execLoop g maxIterations g.startNode [] 0 initialState
  { r.1 with iterations := r.2, success := r.1.error.isNone }

/- ## Helper lemmas -/

/-- A nonzero numeric argument is never replaced by the default. -/
theorem jsOrNat_some_of_ne_zero (n d : Nat) (h : n ≠ 0) : jsOrNat (some n) d = n := by
  cases n with
  | zero => exact absurd rfl h
  | succ k => rfl

/-- Index-wise description of the AUTO_PATCH plan rewrite. -/
theorem patchPlanAux_get? (p : SkillArgs) (c : Nat) (l : List SkillStep) :
    ∀ i j, (patchPlanAux p c i l).get? j =
      (l.get? j).map fun s =>
        if i + j = c then { s with args := mergeArgs s.args p } else s := by
  induction l with
  | nil => intro i j; simp [patchPlanAux]
  | cons s rest ih =>
    intro i j
    cases j with
    | zero => simp [patchPlanAux]
    | succ j =>
      have h : i + 1 + j = i + (j + 1) := by omega
      simp only [patchPlanAux, List.get?_cons_succ, ih (i + 1) j, h]

/- ## Claim C10: cycle nodes are no-ops outside their trigger condition -/

/-- Claim C10: for a state whose intent type is not command_automate the
planner and the dispatcher return the state unchanged with no external
calls, and for a state with no failed step the recovery engine returns
the state unchanged with no LLM call. -/
theorem c10_nodes_noop_outside_trigger (pb : Option PlanOracle) (oc : DispatchOutcome)
    (lb : Option LLMOracle) (st : WorkflowState) :
    (st.intentType ≠ some "command_automate" →
      planSkills pb st = (st, 0) ∧ executeCommand oc st = (st, false)) ∧
    (st.failedStep = none → recoverSkill lb st = (st, false)) := by
  constructor
  · intro h
    constructor
    · simp [planSkills, h]
    · simp [executeCommand, h]
  · intro h
    simp [recoverSkill, h]

/-- Witness for C10 at a concrete chat-intent state. -/
theorem c10_nodes_noop_outside_trigger_witness :
    planSkills none { intentType := some "question" } = ({ intentType := some "question" }, 0) ∧
    executeCommand (.threw "boom") { intentType := some "question" } =
      ({ intentType := some "question" }, false) ∧
    recoverSkill none { intentType := some "question" } = ({ intentType := some "question" }, false) := by
  have h := c10_nodes_noop_outside_trigger none (.threw "boom") none { intentType := some "question" }
  exact ⟨(h.1 (by decide)).1, (h.1 (by decide)).2, h.2 rfl⟩

/- ## Claim C6: fast-path recoveries never touch the LLM backend -/

/-- Claim C6: when the failed step's error text matches a fast-path
pattern (tryFastRecovery returns a decision), recoverSkill applies that
decision and reports no LLM backend invocation, for every backend. -/
theorem c6_fastpath_no_llm (backend : Option LLMOracle) (st : WorkflowState) (fs : StepResult)
    (hfs : st.failedStep = some fs)
    (hfast : (tryFastRecovery fs st.skillPlan st.skillCursor st.stepRetryCount).isSome = true) :
    recoverSkill backend st =
      (applyRecovery ((tryFastRecovery fs st.skillPlan st.skillCursor st.stepRetryCount).getD emptyDecision)
        fs st st.skillPlan st.skillCursor st.stepRetryCount, false) := by
  unfold recoverSkill
  rw [hfs]
  cases h : tryFastRecovery fs st.skillPlan st.skillCursor st.stepRetryCount with
  | none => rw [h] at hfast; simp at hfast
  | some d => simp [h]

/-- Concrete failed step whose error text matches the unimplemented-skill
fast-path pattern. -/
def fsUnimplemented : StepResult :=
  { step := 1, skill := "ui.findAndClick", args := {}, ok := false
    error := some "ui.findAndClick is not yet implemented" }

/-- Concrete state carrying `fsUnimplemented` as its failed step. -/
def stUnimplemented : WorkflowState :=
  { intentType := some "command_automate", failedStep := some fsUnimplemented }

/-- Witness for C6 at a concrete fast-path failure. -/
theorem c6_fastpath_no_llm_witness :
    recoverSkill (some { available := true, decision? := some { action := "REPLAN" } }) stUnimplemented =
      (applyRecovery ((tryFastRecovery fsUnimplemented stUnimplemented.skillPlan
          stUnimplemented.skillCursor stUnimplemented.stepRetryCount).getD emptyDecision)
        fsUnimplemented stUnimplemented stUnimplemented.skillPlan
        stUnimplemented.skillCursor stUnimplemented.stepRetryCount, false) :=
  c6_fastpath_no_llm (some { available := true, decision? := some { action := "REPLAN" } })
    stUnimplemented fsUnimplemented rfl (by decide)

/- ## Claim C3: which recovery decisions clear failedStep -/

/-- Concrete failed step used by the C3 theorems. -/
def fsPermDenied : StepResult :=
  { step := 1, skill := "shell.run", args := { cmd := some "touch" }, ok := false
    error := some "permission denied" }

/-- Counterexample to C3 as stated: applying an ASK_USER decision leaves
the non-null failedStep in place, so not all three decision variants
clear it. -/
theorem c3_counterexample :
    (applyRecovery { action := "ASK_USER", question := some "proceed?", options := some ["a", "b"] }
        fsPermDenied { failedStep := some fsPermDenied } (some [defaultStep]) 0 0).failedStep
      = some fsPermDenied ∧
    (some fsPermDenied ≠ (none : Option StepResult)) := by
  constructor
  · rfl
  · simp

/-- Amended C3: applying an AUTO_PATCH or REPLAN decision clears
failedStep to null, while applying an ASK_USER decision leaves the
failedStep field unchanged. -/
theorem c3_failedStep_cleared_amended (d : Decision) (fs : StepResult) (st : WorkflowState)
    (plan : Option (List SkillStep)) (cursor rc : Nat) :
    (d.action = "AUTO_PATCH" → (applyRecovery d fs st plan cursor rc).failedStep = none) ∧
    (d.action = "REPLAN" → (applyRecovery d fs st plan cursor rc).failedStep = none) ∧
    (d.action = "ASK_USER" → (applyRecovery d fs st plan cursor rc).failedStep = st.failedStep) := by
  refine ⟨fun h => ?_, fun h => ?_, fun h => ?_⟩ <;> simp [applyRecovery, h]

/-- Witness for the amended C3 at the three concrete decision shapes. -/
theorem c3_failedStep_cleared_amended_witness :
    (applyRecovery { action := "AUTO_PATCH" } fsPermDenied { failedStep := some fsPermDenied }
        (some [defaultStep]) 0 0).failedStep = none ∧
    (applyRecovery { action := "REPLAN" } fsPermDenied { failedStep := some fsPermDenied }
        (some [defaultStep]) 0 0).failedStep = none ∧
    (applyRecovery { action := "ASK_USER" } fsPermDenied { failedStep := some fsPermDenied }
        (some [defaultStep]) 0 0).failedStep = some fsPermDenied :=
  ⟨(c3_failedStep_cleared_amended { action := "AUTO_PATCH" } fsPermDenied
      { failedStep := some fsPermDenied } (some [defaultStep]) 0 0).1 rfl,
   (c3_failedStep_cleared_amended { action := "REPLAN" } fsPermDenied
      { failedStep := some fsPermDenied } (some [defaultStep]) 0 0).2.1 rfl,
   (c3_failedStep_cleared_amended { action := "ASK_USER" } fsPermDenied
      { failedStep := some fsPermDenied } (some [defaultStep]) 0 0).2.2 rfl⟩

/- ## Claim C7: Replan resets the cursor and plan, AutoPatch only patches args -/

/-- Claim C7: a REPLAN decision always resets skillCursor to 0 and clears
the prior plan; an AUTO_PATCH decision never changes skillCursor and
rewrites only the failing step's args, leaving every other step and the
failing step's skill, optional flag and description intact. -/
theorem c7_replan_resets_autopatch_frame (d : Decision) (fs : StepResult) (st : WorkflowState)
    (planList : List SkillStep) (cursor rc : Nat) :
    (d.action = "REPLAN" →
      (applyRecovery d fs st (some planList) cursor rc).skillCursor = 0 ∧
      (applyRecovery d fs st (some planList) cursor rc).skillPlan = none) ∧
    (d.action = "AUTO_PATCH" →
      (applyRecovery d fs st (some planList) cursor rc).skillCursor = cursor ∧
      (applyRecovery d fs st (some planList) cursor rc).skillPlan =
        some (patchPlanAux d.patchedArgs cursor 0 planList) ∧
      (∀ i, i ≠ cursor →
        (patchPlanAux d.patchedArgs cursor 0 planList).get? i = planList.get? i) ∧
      (∀ i s, planList.get? i = some s →
        ∃ s', (patchPlanAux d.patchedArgs cursor 0 planList).get? i = some s' ∧
          s'.skill = s.skill ∧ s'.optional = s.optional ∧ s'.description = s.description)) := by
  constructor
  · intro h
    constructor <;> simp [applyRecovery, h]
  · intro h
    refine ⟨by simp [applyRecovery, h], by simp [applyRecovery, h], fun i hi => ?_, fun i s hs => ?_⟩
    · rw [patchPlanAux_get?]
      cases hg : planList.get? i with
      | none => rfl
      | some s => simp [Nat.zero_add, hi]
    · rw [patchPlanAux_get?, hs]
      by_cases hic : i = cursor
      · exact ⟨{ s with args := mergeArgs s.args d.patchedArgs }, by simp [hic], rfl, rfl, rfl⟩
      · exact ⟨s, by simp [Nat.zero_add, hic], rfl, rfl, rfl⟩

/-- Witness for C7 at a concrete two-step plan and both decision shapes. -/
theorem c7_replan_resets_autopatch_frame_witness :
    ((applyRecovery { action := "REPLAN" } fsPermDenied { failedStep := some fsPermDenied }
        (some [defaultStep, defaultStep]) 1 0).skillCursor = 0 ∧
     (applyRecovery { action := "REPLAN" } fsPermDenied { failedStep := some fsPermDenied }
        (some [defaultStep, defaultStep]) 1 0).skillPlan = none) ∧
    (applyRecovery { action := "AUTO_PATCH", patchedArgs := { timeoutMs := some 5 } } fsPermDenied
        { failedStep := some fsPermDenied } (some [defaultStep, defaultStep]) 1 0).skillCursor = 1 :=
  ⟨(c7_replan_resets_autopatch_frame { action := "REPLAN" } fsPermDenied
      { failedStep := some fsPermDenied } [defaultStep, defaultStep] 1 0).1 rfl,
   ((c7_replan_resets_autopatch_frame { action := "AUTO_PATCH", patchedArgs := { timeoutMs := some 5 } }
      fsPermDenied { failedStep := some fsPermDenied } [defaultStep, defaultStep] 1 0).2 rfl).1⟩

/- ## Claim C9: every reasoning failure degrades to AskUser -/

/-- Claim C9: when no fast-path pattern matches and the LLM backend is
absent, unavailable, or yields something that is not one of the three
valid decision shapes, recoverSkill returns an ask_user decision with a
pending question — never any other outcome. -/
theorem c9_llm_failure_askuser (backend : Option LLMOracle) (st : WorkflowState) (fs : StepResult)
    (hfs : st.failedStep = some fs)
    (hfast : tryFastRecovery fs st.skillPlan st.skillCursor st.stepRetryCount = none)
    (hfail : backend = none ∨ ∃ b, backend = some b ∧
      (b.available = false ∨ b.decision? = none ∨
        ∃ d, b.decision? = some d ∧
          d.action ≠ "AUTO_PATCH" ∧ d.action ≠ "REPLAN" ∧ d.action ≠ "ASK_USER")) :
    (recoverSkill backend st).1.recoveryAction = some "ask_user" ∧
    ((recoverSkill backend st).1.pendingQuestion).isSome = true := by
  simp only [recoverSkill, hfs, hfast]
  rcases hfail with rfl | ⟨b, rfl, hb⟩
  · simp [noBackendAskUser]
  · cases hav : b.available with
    | false => simp [hav, catchAskUser]
    | true =>
      rcases hb with hb | hdec | ⟨d, hd, h1, h2, h3⟩
      · rw [hav] at hb; cases hb
      · simp [hav, hdec, catchAskUser]
      · simp [hav, hd, applyRecovery, h1, h2, h3]

/-- Concrete failed step whose error matches no fast-path pattern. -/
def fsMystery : StepResult :=
  { step := 2, skill := "shell.run", args := { cmd := some "tar" }, ok := false
    error := some "mysterious failure with no known pattern" }

/-- Concrete state carrying `fsMystery` as its failed step. -/
def stMystery : WorkflowState :=
  { intentType := some "command_automate", failedStep := some fsMystery }

/-- Witness for C9 at a backend that returns an unparseable action. -/
theorem c9_llm_failure_askuser_witness :
    (recoverSkill (some { available := true, decision? := some { action := "PATCH_EVERYTHING" } })
        stMystery).1.recoveryAction = some "ask_user" ∧
    ((recoverSkill (some { available := true, decision? := some { action := "PATCH_EVERYTHING" } })
        stMystery).1.pendingQuestion).isSome = true :=
  c9_llm_failure_askuser
    (some { available := true, decision? := some { action := "PATCH_EVERYTHING" } })
    stMystery fsMystery rfl (by decide)
    (Or.inr ⟨_, rfl, Or.inr (Or.inr ⟨_, rfl, by decide, by decide, by decide⟩)⟩)

/- ## Claim C2: the iteration cap halts the engine but sets no error -/

/-- A two-node graph whose routing never reaches the terminal marker:
node a routes to node b and back, both nodes succeed unchanged. -/
def cyclicGraph : StateGraph Unit :=
  { nodes := fun n => if n = "a" ∨ n = "b" then some (fun s => .ok s) else none
    edges := fun n =>
      if n = "a" then .staticEdge "b"
      else if n = "b" then .staticEdge "a"
      else .undefinedEdge
    startNode := "a" }

/-- The final state of executing the cyclic graph from an empty payload. -/
def cyclicResult : GraphState Unit := StateGraph.execute cyclicGraph { payload := () }

/-- Bound for the execution loop: it can add at most `fuel` iterations. -/
theorem execLoop_iterations_le (g : StateGraph σ) :
    ∀ (fuel : Nat) (cur : String) (visited : List (String × Nat)) (iterations : Nat)
      (st : GraphState σ),
      (StateGraph.execLoop g fuel cur visited iterations st).2 ≤ iterations + fuel := by
  intro fuel
  induction fuel with
  | zero => intro cur visited iterations st; simp [StateGraph.execLoop]
  | succ fuel ih =>
    intro cur visited iterations st
    by_cases h1 : cur = "" ∨ cur = "end"
    · simp [StateGraph.execLoop, h1]
    · by_cases h2 : (cur, iterations + 1) ∈ visited ∧ 10 < iterations + 1
      · simp [StateGraph.execLoop, h1, h2.1, h2.2]
      · cases hn : g.nodes cur with
        | none => simp [StateGraph.execLoop, h1, h2, hn]
        | some nodeFn =>
          cases he : nodeFn st with
          | error msg => simp [StateGraph.execLoop, h1, h2, hn, he]
          | ok st1 =>
            have hih := ih (g.getNextNode cur st1) ((cur, iterations + 1) :: visited) (iterations + 1) st1
            simp [StateGraph.execLoop, h1, h2, hn, he]
            omega

/-- Claim C2, checked against the code: the engine always halts within
the 50-iteration cap, but on the capped cyclic graph it exits with no
error field set and success = true — exceeding the cap does not set an
error (the in-loop infinite-loop detection key includes the strictly
increasing iteration counter, so that branch can never fire). -/
theorem c2_loop_cap_halts_without_error :
    (∀ (σ : Type) (g : StateGraph σ) (st : GraphState σ),
      (StateGraph.execute g st).iterations ≤ maxIterations) ∧
    cyclicResult.error = none ∧
    cyclicResult.success = true ∧
    cyclicResult.iterations = 50 := by
  refine ⟨fun σ g st => ?_, ?_, ?_, ?_⟩
  · have h := execLoop_iterations_le g maxIterations g.startNode [] 0 { payload := st.payload, error := st.error, failedNode := st.failedNode, success := st.success, iterations := st.iterations }
    simpa [StateGraph.execute] using execLoop_iterations_le g maxIterations g.startNode [] 0 st
  · decide
  · decide
  · decide

/- ## Claim C8: results are append-only and the cursor stays in bounds -/

/-- Frame facts for one dispatcher pass: the plan is never modified, a
pass appends exactly one StepResult when (and only when) a dispatch
attempt was made, and the cursor either stays or advances by one from a
position strictly inside the plan. -/
theorem executeCommand_pass (o : DispatchOutcome) (st : WorkflowState) :
    (executeCommand o st).1.skillPlan = st.skillPlan ∧
    (executeCommand o st).1.skillResults.length =
      st.skillResults.length + (if (executeCommand o st).2 then 1 else 0) ∧
    ((executeCommand o st).1.skillCursor = st.skillCursor ∨
      ((executeCommand o st).1.skillCursor = st.skillCursor + 1 ∧
        st.skillCursor < (st.skillPlan.getD []).length)) := by
  by_cases h1 : st.intentType = some "command_automate"
  case neg => simp [executeCommand, h1]
  case pos =>
    by_cases h2 : st.hasMcpAdapter
    case neg => simp [executeCommand, h1, h2]
    case pos =>
      cases hp : st.skillPlan with
      | none => simp [executeCommand, h1, h2, hp]
      | some plan =>
        by_cases h3 : plan.length = 0
        case pos => simp [executeCommand, h1, h2, hp, h3]
        case neg =>
          by_cases h4 : plan.length ≤ st.skillCursor
          case pos => simp [executeCommand, h1, h2, hp, h3, h4]
          case neg =>
            cases o with
            | threw msg => simp [executeCommand, h1, h2, hp, h3, h4]
            | ok raw =>
              unfold executeCommand
              rw [if_neg (by simp [h1])]
              rw [if_neg (by simp [h2])]
              rw [hp]
              dsimp only
              rw [if_neg h3, if_neg h4]
              split <;> split <;>
                first
                  | (refine ⟨?_, ?_, Or.inl ?_⟩ <;> simp [hp]
                     done)
                  | (refine ⟨?_, ?_, Or.inr ⟨?_, ?_⟩⟩ <;> simp [hp] <;> omega)

/-- Claim C8: over any sequence of dispatcher passes, the number of
results equals the initial count plus the number of dispatch attempts
(so it is at least the attempt count, and no result is ever removed),
and the cursor invariant 0 ≤ skillCursor ≤ len(skillPlan) holds after
every pass. -/
theorem c8_results_monotone_cursor_bound (outcomes : List DispatchOutcome) (st : WorkflowState)
    (hinv : st.skillCursor ≤ (st.skillPlan.getD []).length) :
    (runDispatch outcomes st).1.skillResults.length =
      st.skillResults.length + (runDispatch outcomes st).2 ∧
    (runDispatch outcomes st).2 ≤ (runDispatch outcomes st).1.skillResults.length ∧
    (runDispatch outcomes st).1.skillCursor ≤
      ((runDispatch outcomes st).1.skillPlan.getD []).length := by
  induction outcomes generalizing st with
  | nil => simpa [runDispatch] using hinv
  | cons o rest ih =>
    obtain ⟨hplan, hlen, hcur⟩ := executeCommand_pass o st
    have hinv1 : (executeCommand o st).1.skillCursor ≤
        ((executeCommand o st).1.skillPlan.getD []).length := by
      rw [hplan]
      rcases hcur with h | ⟨h, hb⟩
      · rw [h]; exact hinv
      · rw [h]; omega
    obtain ⟨e1, e2, e3⟩ := ih (executeCommand o st).1 hinv1
    simp only [runDispatch]
    refine ⟨?_, ?_, e3⟩
    · cases hr : (executeCommand o st).2 <;>
        simp only [hr, if_true, if_false] at hlen ⊢ <;> omega
    · cases hr : (executeCommand o st).2 <;>
        simp only [hr, if_true, if_false] at hlen ⊢ <;> omega

/-- Witness for C8 at a concrete one-step plan with one successful pass. -/
theorem c8_results_monotone_cursor_bound_witness :
    (runDispatch [.ok { ok? := some true, stdout := some "hello" }]
        { intentType := some "command_automate", hasMcpAdapter := true
          skillPlan := some [{ skill := "shell.run", args := { cmd := some "echo" } }] }).1.skillResults.length =
      0 + (runDispatch [.ok { ok? := some true, stdout := some "hello" }]
        { intentType := some "command_automate", hasMcpAdapter := true
          skillPlan := some [{ skill := "shell.run", args := { cmd := some "echo" } }] }).2 ∧
    (runDispatch [.ok { ok? := some true, stdout := some "hello" }]
        { intentType := some "command_automate", hasMcpAdapter := true
          skillPlan := some [{ skill := "shell.run", args := { cmd := some "echo" } }] }).2 ≤
      (runDispatch [.ok { ok? := some true, stdout := some "hello" }]
        { intentType := some "command_automate", hasMcpAdapter := true
          skillPlan := some [{ skill := "shell.run", args := { cmd := some "echo" } }] }).1.skillResults.length ∧
    (runDispatch [.ok { ok? := some true, stdout := some "hello" }]
        { intentType := some "command_automate", hasMcpAdapter := true
          skillPlan := some [{ skill := "shell.run", args := { cmd := some "echo" } }] }).1.skillCursor ≤
      ((runDispatch [.ok { ok? := some true, stdout := some "hello" }]
        { intentType := some "command_automate", hasMcpAdapter := true
          skillPlan := some [{ skill := "shell.run", args := { cmd := some "echo" } }] }).1.skillPlan.getD []).length :=
  c8_results_monotone_cursor_bound [.ok { ok? := some true, stdout := some "hello" }]
    { intentType := some "command_automate", hasMcpAdapter := true
      skillPlan := some [{ skill := "shell.run", args := { cmd := some "echo" } }] } (by decide)

/- ## Claim C1: timeout AutoPatch backoff -/

/-- The step at the patched cursor position carries exactly the merged
args. -/
theorem patchPlanAux_getElem_cursor (p : SkillArgs) (c : Nat) (l : List SkillStep)
    (h : c < l.length) :
    (patchPlanAux p c 0 l)[c]?.getD defaultStep =
      { l[c] with args := mergeArgs l[c].args p } := by
  have hg := patchPlanAux_get? p c l 0 c
  simp only [Nat.zero_add, if_pos rfl] at hg
  rw [← List.get?_eq_getElem?, hg, List.get?_eq_get h]
  simp

/-- Amended C1 over an arbitrary failing step whose error is a generic
timeout (a shell.run step that is not the find special case and matches
no earlier fast-path pattern): with the step's current timeout C, retry
count 0 yields an AutoPatch to C * 2 and retry count 1 yields C * 3 of
the current (already patched) value, while retry count 2 converts to
AskUser.  Since the dispatcher re-reads the patched plan, with initial
timeout T the patched values are 2T and then 3 * (2T) = 6T, not 3T. -/
theorem c1_timeout_backoff_amended (backend : Option LLMOracle) (st : WorkflowState)
    (fs : StepResult) (plan : List SkillStep) (C : Nat)
    (hfs : st.failedStep = some fs)
    (hplan : st.skillPlan = some plan)
    (hcur : st.skillCursor < plan.length)
    (hskill : fs.skill = "shell.run")
    (hcmd : (fs.args.cmd == some "find") = false)
    (htm : fs.args.timeoutMs = some C)
    (hC : C ≠ 0)
    (htimeout : strIncludes (combinedErrorText fs) "timed out" = true ∨
      strIncludes (combinedErrorText fs) "timeout" = true)
    (hn1 : strIncludes (combinedErrorText fs) "not yet implemented" = false)
    (hn2 : strIncludes (combinedErrorText fs) "permission denied" = false)
    (hn3 : strIncludes (combinedErrorText fs) "read-only" = false)
    (hn4 : strIncludes (combinedErrorText fs) "command not found" = false)
    (hn5 : strIncludes (combinedErrorText fs) "no such file or directory" = false)
    (hn6 : strIncludes (combinedErrorText fs) "search_no_results" = false) :
    (st.stepRetryCount = 0 →
      (recoverSkill backend st).1.recoveryAction = some "auto_patch" ∧
      (recoverSkill backend st).1.stepRetryCount = 1 ∧
      (((recoverSkill backend st).1.skillPlan.getD []).getD st.skillCursor defaultStep).args.timeoutMs
        = some (C * 2)) ∧
    (st.stepRetryCount = 1 →
      (recoverSkill backend st).1.recoveryAction = some "auto_patch" ∧
      (recoverSkill backend st).1.stepRetryCount = 2 ∧
      (((recoverSkill backend st).1.skillPlan.getD []).getD st.skillCursor defaultStep).args.timeoutMs
        = some (C * 3)) ∧
    (st.stepRetryCount = 2 →
      (recoverSkill backend st).1.recoveryAction = some "ask_user") := by
  have hbskill : (fs.skill == "browser.act") = false := by rw [hskill]; rfl
  have hshell : (fs.skill == "shell.run") = true := by rw [hskill]; rfl
  refine ⟨fun hrc => ?_, fun hrc => ?_, fun hrc => ?_⟩ <;>
  · rcases htimeout with ht | ht <;>
    · simp only [recoverSkill, hfs, tryFastRecovery, hrc, hn1, hn2, hn3, hn4, hn5, hn6,
        hbskill, hshell, hcmd, ht, htm, jsOrNat_some_of_ne_zero C 10000 hC,
        Bool.false_and, Bool.and_false, Bool.false_or, Bool.or_false, Bool.true_and,
        Bool.and_true, Bool.true_or, Bool.or_true, if_false, if_true,
        Bool.false_eq_true, if_neg, reduceIte]
      norm_num
      simp only [applyRecovery, reduceIte, hplan]
      first
        | rfl
        | (refine ⟨trivial, trivial, ?_⟩
           simp only [Option.getD_some]
           rw [patchPlanAux_getElem_cursor _ _ _ hcur]
           simp [mergeArgs, Option.orElse])

/-- Concrete shell step with explicit initial timeout T = 10000. -/
def sleepStep : SkillStep :=
  { skill := "shell.run", args := { cmd := some "sleep", argv := some ["30"], timeoutMs := some 10000 } }

/-- Concrete timed-out failure of `sleepStep`. -/
def fsTimeout1 : StepResult :=
  { step := 1, skill := "shell.run", args := sleepStep.args, ok := false
    error := some "Command timed out" }

/-- Concrete state at the first timeout failure of `sleepStep`. -/
def stTimeout1 : WorkflowState :=
  { intentType := some "command_automate", hasMcpAdapter := true
    skillPlan := some [sleepStep], skillCursor := 0
    failedStep := some fsTimeout1, stepRetryCount := 0 }

/-- Witness for the amended C1 at the first retry of a concrete step. -/
theorem c1_timeout_backoff_amended_witness :
    (recoverSkill none stTimeout1).1.recoveryAction = some "auto_patch" ∧
    (recoverSkill none stTimeout1).1.stepRetryCount = 1 ∧
    (((recoverSkill none stTimeout1).1.skillPlan.getD []).getD stTimeout1.skillCursor
      defaultStep).args.timeoutMs = some (10000 * 2) :=
  (c1_timeout_backoff_amended none stTimeout1 fsTimeout1 [sleepStep] 10000 rfl rfl
    (by decide) rfl (by decide) rfl (by decide) (Or.inl (by decide)) (by decide) (by decide)
    (by decide) (by decide) (by decide) (by decide)).1 rfl

/-- External outcome of a dispatch that times out. -/
def timeoutOutcome : DispatchOutcome := .ok { ok? := some false, error := some "Command timed out" }

/-- Initial state of the counterexample run: one shell step with no
explicit timeout, so the initial timeout is the default T = 10000. -/
def c1State0 : WorkflowState :=
  { intentType := some "command_automate", hasMcpAdapter := true
    skillPlan := some [{ skill := "shell.run", args := { cmd := some "sleep", argv := some ["30"] } }] }

/-- State after the first timeout failure and its AutoPatch recovery. -/
def c1Rec1 : WorkflowState := (recoverSkill none (executeCommand timeoutOutcome c1State0).1).1

/-- State after the second timeout failure and its AutoPatch recovery. -/
def c1Rec2 : WorkflowState := (recoverSkill none (executeCommand timeoutOutcome c1Rec1).1).1

/-- Counterexample to C1 as stated: with initial timeout T = 10000 the
first timeout AutoPatch sets 20000 = 2T, but the second sets 60000 =
3 * (2T), not 3T = 30000 — the second multiplier applies to the already
patched timeout, not the initial one. -/
theorem c1_counterexample :
    ((c1Rec1.skillPlan.getD []).getD 0 defaultStep).args.timeoutMs = some 20000 ∧
    ((c1Rec2.skillPlan.getD []).getD 0 defaultStep).args.timeoutMs = some 60000 ∧
    (60000 : Nat) ≠ 3 * 10000 :=
  ⟨by decide, by decide, by decide⟩

/- ## Claim C5: empty search results — reclassification and recovery -/

/-- Amended C5.  Part 1: a non-optional shell.run step whose command is
on the search allowlist and whose dispatch resolves cleanly (ok, or exit
code 1) with empty stdout is reclassified as a failure tagged
search_no_results.  Part 2: the recovery fast path returns REPLAN for
that tag when the command is mdfind or find.  Part 3: for grep or locate
the fast path does not match at all, and with no LLM backend the
recovery engine returns ask_user — not Replan. -/
theorem c5_search_reclassification_amended :
    (∀ (st : WorkflowState) (plan : List SkillStep) (raw : RawResult) (step : SkillStep) (c : String),
      st.intentType = some "command_automate" → st.hasMcpAdapter = true →
      st.skillPlan = some plan → st.skillCursor < plan.length →
      plan.getD st.skillCursor defaultStep = step →
      step.skill = "shell.run" → step.args.cmd = some c → SEARCH_CMDS.contains c = true →
      step.optional = false →
      (raw.ok?.getD (raw.success?.getD false) = true ∨ raw.exitCode = some 1) →
      jsOrNone raw.stdout = none →
      ∃ r, (executeCommand (.ok raw) st).1.failedStep = some r ∧ r.ok = false ∧
        r.error = some searchNoResultsMsg) ∧
    (∀ (fs : StepResult) (p : Option (List SkillStep)) (cur rc : Nat),
      fs.skill = "shell.run" → fs.error = some searchNoResultsMsg → fs.stderr = none →
      (fs.args.cmd = some "mdfind" ∨ fs.args.cmd = some "find") →
      ∃ d, tryFastRecovery fs p cur rc = some d ∧ d.action = "REPLAN") ∧
    (∀ (fs : StepResult) (st : WorkflowState),
      fs.skill = "shell.run" → fs.error = some searchNoResultsMsg → fs.stderr = none →
      (fs.args.cmd = some "grep" ∨ fs.args.cmd = some "locate") →
      tryFastRecovery fs st.skillPlan st.skillCursor st.stepRetryCount = none ∧
      (st.failedStep = some fs →
        (recoverSkill none st).1.recoveryAction = some "ask_user")) := by
  have hlow : ∀ fs : StepResult, fs.error = some searchNoResultsMsg → fs.stderr = none →
      combinedErrorText fs = "search_no_results: search returned no results for the given query " := by
    intro fs herr hstderr
    unfold combinedErrorText
    rw [herr, hstderr]
    decide
  refine ⟨?_, ?_, ?_⟩
  · intro st plan raw step c h1 h2 hp hcur hstep hskill hcmd hmem hopt hok hstd
    have h3 : ¬plan.length = 0 := by omega
    have h4 : ¬plan.length ≤ st.skillCursor := by omega
    unfold executeCommand
    rw [if_neg (by simp [h1]), if_neg (by simp [h2]), hp]
    dsimp only
    rw [if_neg h3, if_neg h4]
    rw [hstep]
    split
    · split
      · exact ⟨_, rfl, rfl, rfl⟩
      · next hno =>
        exact absurd ⟨by simp, by simp [hopt]⟩ hno
    · next hcond =>
      exfalso
      apply hcond
      rcases hok with h | h <;>
        · simp [hskill, hcmd, hstd, h]
          exact Or.inl (by simpa using hmem)
  · intro fs p cur rc hskill herr hstderr hcmd
    have hcomb := hlow fs herr hstderr
    have hbskill : (fs.skill == "browser.act") = false := by rw [hskill]; rfl
    have hshell : (fs.skill == "shell.run") = true := by rw [hskill]; rfl
    have e1 : strIncludes "search_no_results: search returned no results for the given query " "not yet implemented" = false := by decide
    have e2 : strIncludes "search_no_results: search returned no results for the given query " "permission denied" = false := by decide
    have e3 : strIncludes "search_no_results: search returned no results for the given query " "read-only" = false := by decide
    have e4 : strIncludes "search_no_results: search returned no results for the given query " "command not found" = false := by decide
    have e5 : strIncludes "search_no_results: search returned no results for the given query " "no such file or directory" = false := by decide
    have e6 : strIncludes "search_no_results: search returned no results for the given query " "search_no_results" = true := by decide
    rcases hcmd with hc | hc
    · have hcmdv : jsOrStr fs.args.cmd "mdfind" = "mdfind" := by rw [hc]; decide
      have hb1 : ("mdfind" == "mdfind") = true := by decide
      simp only [tryFastRecovery, hcomb, hbskill, hshell, hc, hcmdv, hb1,
        e1, e2, e3, e4, e5, e6,
        Bool.false_and, Bool.and_false, Bool.false_or, Bool.or_false,
        Bool.true_and, Bool.and_true, if_false, if_true, reduceIte]
      exact ⟨_, rfl, rfl⟩
    · have hcmdv : jsOrStr fs.args.cmd "mdfind" = "find" := by rw [hc]; decide
      have hb1 : ("find" == "mdfind") = false := by decide
      have hb2 : ("find" == "find") = true := by decide
      simp only [tryFastRecovery, hcomb, hbskill, hshell, hc, hcmdv, hb1, hb2,
        e1, e2, e3, e4, e5, e6,
        Bool.false_and, Bool.and_false, Bool.false_or, Bool.or_false,
        Bool.true_and, Bool.and_true, if_false, if_true, reduceIte]
      exact ⟨_, rfl, rfl⟩
  · intro fs st hskill herr hstderr hcmd
    have hcomb := hlow fs herr hstderr
    have hbskill : (fs.skill == "browser.act") = false := by rw [hskill]; rfl
    have hshell : (fs.skill == "shell.run") = true := by rw [hskill]; rfl
    have e1 : strIncludes "search_no_results: search returned no results for the given query " "not yet implemented" = false := by decide
    have e2 : strIncludes "search_no_results: search returned no results for the given query " "permission denied" = false := by decide
    have e3 : strIncludes "search_no_results: search returned no results for the given query " "read-only" = false := by decide
    have e4 : strIncludes "search_no_results: search returned no results for the given query " "command not found" = false := by decide
    have e5 : strIncludes "search_no_results: search returned no results for the given query " "no such file or directory" = false := by decide
    have e6 : strIncludes "search_no_results: search returned no results for the given query " "search_no_results" = true := by decide
    have e7 : strIncludes "search_no_results: search returned no results for the given query " "timed out" = false := by decide
    have e8 : strIncludes "search_no_results: search returned no results for the given query " "timeout" = false := by decide
    have hfastnone : tryFastRecovery fs st.skillPlan st.skillCursor st.stepRetryCount = none := by
      rcases hcmd with hc | hc
      · have hcmdv : jsOrStr (some "grep") "mdfind" = "grep" := by decide
        have hq1 : ("grep" : String) ≠ "mdfind" := by decide
        have hq2 : ("grep" : String) ≠ "find" := by decide
        simp only [tryFastRecovery, hcomb, hbskill, hshell, hc, hcmdv,
          e1, e2, e3, e4, e5, e6, e7, e8,
          Bool.false_and, Bool.and_false, Bool.false_or, Bool.or_false,
          Bool.true_and, Bool.and_true, if_false, if_true, reduceIte]
        simp [hq1, hq2]
      · have hcmdv : jsOrStr (some "locate") "mdfind" = "locate" := by decide
        have hq1 : ("locate" : String) ≠ "mdfind" := by decide
        have hq2 : ("locate" : String) ≠ "find" := by decide
        simp only [tryFastRecovery, hcomb, hbskill, hshell, hc, hcmdv,
          e1, e2, e3, e4, e5, e6, e7, e8,
          Bool.false_and, Bool.and_false, Bool.false_or, Bool.or_false,
          Bool.true_and, Bool.and_true, if_false, if_true, reduceIte]
        simp [hq1, hq2]
    refine ⟨hfastnone, fun hfs => ?_⟩
    simp [recoverSkill, hfs, hfastnone, noBackendAskUser]

/-- Concrete grep step used by the C5 counterexample. -/
def grepStep : SkillStep :=
  { skill := "shell.run", args := { cmd := some "grep", argv := some ["-r", "foo", "/tmp"] } }

/-- Concrete state about to dispatch `grepStep`. -/
def c5State : WorkflowState :=
  { intentType := some "command_automate", hasMcpAdapter := true, skillPlan := some [grepStep] }

/-- The state after a clean-but-empty dispatch of `grepStep`. -/
def c5Pass : WorkflowState := (executeCommand (.ok { ok? := some true }) c5State).1

/-- Counterexample to C5 as stated: grep is on the search allowlist and
its empty success is correctly reclassified, but the first recovery on
that failure is ask_user (the fast path has no grep rule and there is no
LLM backend), not Replan. -/
theorem c5_counterexample :
    (c5Pass.failedStep.map StepResult.error) = some (some searchNoResultsMsg) ∧
    (recoverSkill none c5Pass).1.recoveryAction = some "ask_user" ∧
    some "ask_user" ≠ some "replan" :=
  ⟨by decide, by decide, by decide⟩

/-- Concrete mdfind step used by the C5 witness. -/
def mdfindStep : SkillStep :=
  { skill := "shell.run", args := { cmd := some "mdfind", argv := some ["-name", "report.pdf"] } }

/-- Concrete state about to dispatch `mdfindStep`. -/
def stMdfind : WorkflowState :=
  { intentType := some "command_automate", hasMcpAdapter := true, skillPlan := some [mdfindStep] }

/-- Concrete reclassified no-results failure of `mdfindStep`. -/
def fsMdfind : StepResult :=
  { step := 1, skill := "shell.run", args := mdfindStep.args, ok := false
    error := some searchNoResultsMsg }

/-- Witness for the amended C5 at concrete mdfind inputs. -/
theorem c5_search_reclassification_amended_witness :
    (∃ r, (executeCommand (.ok { ok? := some true }) stMdfind).1.failedStep = some r ∧
      r.ok = false ∧ r.error = some searchNoResultsMsg) ∧
    (∃ d, tryFastRecovery fsMdfind none 0 0 = some d ∧ d.action = "REPLAN") :=
  ⟨c5_search_reclassification_amended.1 stMdfind [mdfindStep] { ok? := some true } mdfindStep
      "mdfind" rfl rfl rfl (by decide) (by decide) rfl rfl (by decide) rfl (Or.inl rfl) rfl,
   c5_search_reclassification_amended.2.1 fsMdfind none 0 0 rfl rfl rfl (Or.inl rfl)⟩

/- ## Claim C4: session-reuse normalization of parsed plans -/

/-- Every browser step of the overwritten plan carries the active
session id. -/
theorem overwriteSession_mem (sid : String) (plan : List SkillStep) :
    ∀ s ∈ plan.map (overwriteSession sid), isBrowserStep s = true →
      s.args.sessionId = some sid := by
  intro s hs hb
  obtain ⟨t, ht, rfl⟩ := List.mem_map.mp hs
  by_cases h : (t.skill == "browser.act") = true
  · simp [overwriteSession, h]
  · unfold overwriteSession at hb ⊢
    rw [if_neg (by simp [h])] at hb ⊢
    exact absurd hb (by simpa [isBrowserStep] using h)

/-- Amended C4.  With a truthy active session id: a plan whose browser
steps use more than one distinct session id is left entirely unchanged;
otherwise (at most one distinct id, at least one browser step) every
browser step's session id is overwritten to the active one, and the
navigation steps are dropped exactly when the first navigation target
resolves to the active domain under the alias pairs AND at least one
non-navigation step remains — a same-domain plan consisting only of
navigation steps keeps them. -/
theorem c4_session_normalization_amended (sid : String) (aurl : Option String)
    (plan : List SkillStep) (hsid : sid ≠ "") :
    (1 < (((plan.filter isBrowserStep).map (fun s => s.args.sessionId)).filter jsTruthy).dedup.length →
      normalizeSessionPlan (some sid) aurl plan = plan) ∧
    ((plan.filter isBrowserStep).length ≠ 0 →
      (((plan.filter isBrowserStep).map (fun s => s.args.sessionId)).filter jsTruthy).dedup.length ≤ 1 →
      ((∀ s ∈ normalizeSessionPlan (some sid) aurl plan, isBrowserStep s = true →
          s.args.sessionId = some sid) ∧
       (navSameDomain (plan.map (overwriteSession sid)) (jsOrNone aurl) = true →
         ((plan.map (overwriteSession sid)).filter (fun s => ¬isNavStep s)).length ≠ 0 →
         normalizeSessionPlan (some sid) aurl plan =
           (plan.map (overwriteSession sid)).filter (fun s => ¬isNavStep s)) ∧
       (navSameDomain (plan.map (overwriteSession sid)) (jsOrNone aurl) = false →
         normalizeSessionPlan (some sid) aurl plan = plan.map (overwriteSession sid)))) := by
  have hj : jsTruthy (some sid) = true := by simp [jsTruthy, hsid]
  constructor
  · intro hmulti
    have hne : ¬((plan.filter isBrowserStep).length = 0) := by
      intro h0
      rw [List.length_eq_zero] at h0
      rw [h0] at hmulti
      simp at hmulti
    unfold normalizeSessionPlan
    rw [if_neg (by simp [hj])]
    dsimp only
    rw [if_neg hne, if_pos hmulti]
  · intro hnb hle
    unfold normalizeSessionPlan
    rw [if_neg (by simp [hj])]
    dsimp only
    rw [if_neg hnb, if_neg (by omega)]
    simp only [Option.getD_some]
    refine ⟨?_, ?_, ?_⟩
    · intro s hs hb
      split at hs
      · split at hs
        · exact overwriteSession_mem sid plan s (List.mem_filter.mp hs).1 hb
        · exact overwriteSession_mem sid plan s hs hb
      · exact overwriteSession_mem sid plan s hs hb
    · intro hsame hlen
      rw [if_pos hsame, if_pos (by omega)]
    · intro hdiff
      rw [if_neg (by simp [hdiff])]

/-- A plan consisting of a single navigation step to a domain alias of
the active session's site. -/
def navOnlyStep : SkillStep :=
  { skill := "browser.act"
    args := { action := some "navigate", url := some "https://chat.openai.com/", sessionId := some "s9" } }

/-- Planning oracle that returns the single-navigation plan. -/
def c4Oracle : PlanOracle := { available := true, response1 := some (.arr [navOnlyStep]) }

/-- State with an active browser session on the aliased domain. -/
def c4State : WorkflowState :=
  { intentType := some "command_automate", activeBrowserSessionId := some "s1"
    activeBrowserUrl := some "https://chatgpt.com/c/abc" }

/-- Counterexample to C4 as stated: the plan uses exactly one session
id, an active session exists, and the navigation target resolves to the
active domain under the alias pairs — yet planSkills keeps the
navigation step (its session id is overwritten but dropping it would
empty the plan, so the strip is skipped). -/
theorem c4_counterexample :
    navSameDomain ([navOnlyStep].map (overwriteSession "s1"))
      (jsOrNone (some "https://chatgpt.com/c/abc")) = true ∧
    (planSkills (some c4Oracle) c4State).1.skillPlan =
      some [{ skill := "browser.act"
              args := { action := some "navigate", url := some "https://chat.openai.com/"
                        sessionId := some "s1" } }] ∧
    isNavStep { skill := "browser.act"
                args := { action := some "navigate", url := some "https://chat.openai.com/"
                          sessionId := some "s1" } } = true :=
  ⟨by decide, by decide, by decide⟩

/-- A follow-up step on the existing page, used by the C4 witness. -/
def smartTypeStep : SkillStep :=
  { skill := "browser.act"
    args := { action := some "smartType", text := some "hello", sessionId := some "s9" } }

/-- Single-session plan with a navigation and a non-navigation step. -/
def c4SinglePlan : List SkillStep := [navOnlyStep, smartTypeStep]

/-- Two-session comparison plan. -/
def c4TwoTabPlan : List SkillStep :=
  [{ skill := "browser.act"
     args := { action := some "navigate", url := some "https://a.com/", sessionId := some "t1" } },
   { skill := "browser.act"
     args := { action := some "navigate", url := some "https://b.com/", sessionId := some "t2" } }]

/-- Witness for the amended C4: the two-session plan is untouched, and
in the single-session plan every browser step is forced onto the active
session id. -/
theorem c4_session_normalization_amended_witness :
    normalizeSessionPlan (some "s1") (some "https://chatgpt.com/") c4TwoTabPlan = c4TwoTabPlan ∧
    (∀ s ∈ normalizeSessionPlan (some "s1") (some "https://chatgpt.com/c/abc") c4SinglePlan,
      isBrowserStep s = true → s.args.sessionId = some "s1") :=
  ⟨(c4_session_normalization_amended "s1" (some "https://chatgpt.com/") c4TwoTabPlan
      (by decide)).1 (by decide),
   ((c4_session_normalization_amended "s1" (some "https://chatgpt.com/c/abc") c4SinglePlan
      (by decide)).2 (by decide) (by decide)).1⟩
